import Mathlib

/-!
# Verification of the SDI caregiver registry core

Shallow embedding of the record identity / upsert reconciliation model of
`src/app.py` and the unverified-names workflow of `src/unverified_caregivers.py`,
together with proofs and refutations of the frozen specification claims.

Collections are embedded as lists of records; pandas dataframe filtering
(`df[df.col != k]`) becomes `List.filter`, `pd.concat` becomes `++`, and the
random bytes drawn by `os.urandom(16)` are threaded explicitly as a seed
parameter.  Python string primitives (`strip`, `lower`, `isdigit`) are modelled
on ASCII text, which covers every input the claims touch.
-/

set_option maxRecDepth 100000

namespace SDI

/-! ## Python string primitives -/

/-- The whitespace characters removed by Python's default `str.strip()`. -/
def pyIsSpace (c : Char) : Bool :=
  c = ' ' || c = '\t' || c = '\n' || c = '\r' || c = '\x0b' || c = '\x0c'

/-- `str.isdigit` restricted to ASCII digits. -/
def pyIsDigit (c : Char) : Bool := '0' ≤ c && c ≤ '9'

/-- ASCII case folding, the effect of Python's `str.lower()` on ASCII text. -/
def asciiLower (c : Char) : Char :=
  if 'A' ≤ c && c ≤ 'Z' then Char.ofNat (c.toNat + 32) else c

/-- Remove the characters satisfying `p` from both ends of a character list. -/
def stripEnds (p : Char → Bool) (l : List Char) : List Char :=
  ((l.dropWhile p).reverse.dropWhile p).reverse

/-- Python `s.strip()`. -/
def pyStrip (s : String) : String := ⟨stripEnds pyIsSpace s.data⟩

/-- Python `s.lower()` on ASCII text. -/
def pyLower (s : String) : String := ⟨s.data.map asciiLower⟩

/-- Python `"".join(ch for ch in s if ch.isdigit())`. -/
def digitsOnly (s : String) : String := ⟨s.data.filter pyIsDigit⟩

/-- Python `s.strip("|")`. -/
def stripPipes (s : String) : String := ⟨stripEnds (fun c => c = '|') s.data⟩

/-! ## SHA-1 (the `hashlib.sha1` the source calls), over byte lists -/

/-- `2^32`. -/
def w32 : Nat := 4294967296

/-- Rotate a 32-bit word left by `n`. -/
def rotl32 (n x : Nat) : Nat :=
  (((x % w32) <<< n) ||| ((x % w32) >>> (32 - n))) % w32

/-- The SHA-1 round function for round `t`. -/
def sha1f (t b c d : Nat) : Nat :=
  if t < 20 then (b &&& c) ||| ((b ^^^ (w32 - 1)) &&& d)
  else if t < 40 then b ^^^ c ^^^ d
  else if t < 60 then (b &&& c) ||| (b &&& d) ||| (c &&& d)
  else b ^^^ c ^^^ d

/-- The SHA-1 round constant for round `t`. -/
def sha1k (t : Nat) : Nat :=
  if t < 20 then 0x5A827999
  else if t < 40 then 0x6ED9EBA1
  else if t < 60 then 0x8F1BBCDC
  else 0xCA62C1D6

/-- `k` bytes of `n`, big-endian. -/
def beBytes : Nat → Nat → List Nat
  | 0, _ => []
  | k + 1, n => beBytes k (n / 256) ++ [n % 256]

/-- SHA-1 message padding: `0x80`, zeros to 56 mod 64, then the bit length. -/
def sha1pad (msg : List Nat) : List Nat :=
  msg ++ 128 :: List.replicate ((119 - msg.length % 64) % 64) 0
      ++ beBytes 8 (msg.length * 8)

/-- Group bytes into big-endian 32-bit words. -/
def bytesToWords : List Nat → List Nat
  | a :: b :: c :: d :: rest =>
      (((a * 256 + b) * 256 + c) * 256 + d) :: bytesToWords rest
  | _ => []

/-- Split a word list into blocks of 16; `fuel` bounds the recursion. -/
def chunk16 : Nat → List Nat → List (List Nat)
  | 0, _ => []
  | _, [] => []
  | fuel + 1, ws => ws.take 16 :: chunk16 fuel (ws.drop 16)

/-- Extend a 16-word block to the 80-word SHA-1 message schedule. -/
def sha1extend (ws : List Nat) : List Nat :=
  (List.range 64).foldl
    (fun a i =>
      a ++ [rotl32 1
        ((a.getD (i + 13) 0) ^^^ (a.getD (i + 8) 0) ^^^
         (a.getD (i + 2) 0) ^^^ (a.getD i 0))])
    ws

/-- Process one 512-bit block. -/
def sha1compress (h : Nat × Nat × Nat × Nat × Nat) (block : List Nat) :
    Nat × Nat × Nat × Nat × Nat :=
  let w := sha1extend block
  let (h0, h1, h2, h3, h4) := h
  let (a, b, c, d, e) :=
    (List.range 80).foldl
      (fun (st : Nat × Nat × Nat × Nat × Nat) t =>
        let (a, b, c, d, e) := st
        let tmp := (rotl32 5 a + sha1f t b c d + e + sha1k t + w.getD t 0) % w32
        (tmp, a, rotl32 30 b, c, d))
      (h0, h1, h2, h3, h4)
  ((h0 + a) % w32, (h1 + b) % w32, (h2 + c) % w32, (h3 + d) % w32, (h4 + e) % w32)

/-- The SHA-1 initialisation vector. -/
def sha1init : Nat × Nat × Nat × Nat × Nat :=
  (0x67452301, 0xEFCDAB89, 0x98BADCFE, 0x10325476, 0xC3D2E1F0)

/-- SHA-1 of a byte list, as five 32-bit words. -/
def sha1words (msg : List Nat) : Nat × Nat × Nat × Nat × Nat :=
  let ws := bytesToWords (sha1pad msg)
  (chunk16 ws.length ws).foldl sha1compress sha1init

/-- One lowercase hex character for a nibble. -/
def hexChar (n : Nat) : Char :=
  if n < 10 then Char.ofNat (48 + n) else Char.ofNat (87 + n)

/-- Eight lowercase hex characters of a 32-bit word. -/
def wordHex (w : Nat) : List Char :=
  (List.range 8).map (fun i => hexChar ((w >>> ((7 - i) * 4)) &&& 15))

/-- `hashlib.sha1(msg).hexdigest()`. -/
def sha1hex (msg : List Nat) : String :=
  let (h0, h1, h2, h3, h4) := sha1words msg
  ⟨wordHex h0 ++ wordHex h1 ++ wordHex h2 ++ wordHex h3 ++ wordHex h4⟩

/-- UTF-8 encoding of one character (Python `str.encode("utf-8")`). -/
def utf8Char (c : Char) : List Nat :=
  let n := c.toNat
  if n < 128 then [n]
  else if n < 2048 then [192 + n / 64, 128 + n % 64]
  else if n < 65536 then [224 + n / 4096, 128 + n / 64 % 64, 128 + n % 64]
  else [240 + n / 262144, 128 + n / 4096 % 64, 128 + n / 64 % 64, 128 + n % 64]

/-- UTF-8 encoding of a string. -/
def utf8Encode (s : String) : List Nat := (s.data.map utf8Char).flatten

/-- First 12 characters of the SHA-1 hex digest of a byte list
(`sha1(...).hexdigest()[:12]`). -/
def sha1hex12 (msg : List Nat) : String := ⟨(sha1hex msg).data.take 12⟩

/-- `stable_key` from `src/app.py`.  `seed` models the 16 bytes returned by
`os.urandom(16)` in the blank-identity branch; the deterministic branch never
consults it. -/
def stable_key (seed : List Nat) (name phone : String) : String :=
  let name' := pyLower (pyStrip name)
  let phone' := digitsOnly phone
  let raw := name' ++ "|" ++ phone'
  if stripPipes raw ≠ "" then sha1hex12 (utf8Encode raw)
  else sha1hex12 seed

/-! ### SHA-1 test vectors (cross-checked against `hashlib`) -/

theorem sha1hex_empty : sha1hex [] = "da39a3ee5e6b4b0d3255bfef95601890afd80709" := by
  decide

theorem sha1hex_abc :
    sha1hex (utf8Encode "abc") = "a9993e364706816aba3e25717850c26c9cd0d89d" := by
  decide

theorem stable_key_janedoe :
    stable_key [] "Jane Doe " "0803-111-2222" = "a00da052508c" := by
  decide

/-! ## Data model: the rows of the three tables (`CAREGIVER_COLS`,
`CHILD_COLS`, `UNVERIFIED_COLS`).  Dates are carried as opaque strings; the
claims never inspect them. -/

/-- One row of the `caregivers` sheet. -/
structure Caregiver where
  caregiver_key : String
  caregiver_name : String
  gender : String
  profession : String
  date_of_birth : Option String
  age : Option Int
  phone_number : String
  address : String
  zonal_leader : String
  bank : String
  account_number : String
  number_of_kids : Option Int
  last_updated : String
deriving DecidableEq, Repr

/-- One row of the `children` sheet. -/
structure ChildRow where
  caregiver_key : String
  caregiver_name : String
  child_name : String
  child_gender : String
  child_phone_number : String
  child_age : Option Int
  child_date_of_birth : Option String
  child_education_level : String
  child_school_name : String
  child_class_level : String
  child_profession : String
  last_updated : String
deriving DecidableEq, Repr

/-- One row of the children data editor in either caregiver form.  `""` also
stands for a missing (NaN) cell: everywhere the handlers read a text cell they
apply `str(... or "")` or guard with `pd.isna`, which identifies the two. -/
structure ChildInput where
  child_name : String
  child_gender : String
  child_phone_number : String
  child_age : Option Int
  child_date_of_birth : Option String
  child_education_level : String
  child_school_name : String
  child_class_level : String
  child_profession : String
deriving DecidableEq, Repr

/-- The caregiver fields of the main (new-save) form. -/
structure CaregiverInput where
  c_name : String
  c_gender : String
  c_prof : String
  c_dob : Option String
  c_age : Option Int
  c_phone : String
  c_address : String
  c_zonal_leader : String
  c_bank : String
  c_account_number : String
  c_numkids : Option Int
deriving DecidableEq, Repr

/-- The caregiver fields of the edit form. -/
structure EditInput where
  edit_name : String
  edit_gender : String
  edit_prof : String
  edit_dob : Option String
  edit_age : Option Int
  edit_phone : String
  edit_address : String
  edit_zonal_leader : String
  edit_bank : String
  edit_account_number : String
  edit_numkids : Option Int
deriving DecidableEq, Repr

/-- `validate_phone_number` from src/app.py: accepts anything. -/
def validate_phone_number (_phone : String) : Bool := true

/-! ## The new-save upsert (`if submitted:` handler, src/app.py 362–465) -/

/-- Build one child row in the new-save path (src/app.py 418–456): discard the
row when the trimmed child name is empty; substitute the caregiver's phone for
a blank child phone. -/
def newSaveChildRow (key cname cphone now : String) (r : ChildInput) : Option ChildRow :=
  let name := pyStrip r.child_name
  if name = "" then none
  else
    let child_phone :=
      if pyStrip r.child_phone_number = "" then pyStrip cphone
      else pyStrip r.child_phone_number
    some { caregiver_key := key
           caregiver_name := pyStrip cname
           child_name := name
           child_gender := pyStrip r.child_gender
           child_phone_number := child_phone
           child_age := r.child_age
           child_date_of_birth := r.child_date_of_birth
           child_education_level := pyStrip r.child_education_level
           child_school_name := pyStrip r.child_school_name
           child_class_level := pyStrip r.child_class_level
           child_profession := pyStrip r.child_profession
           last_updated := now }

/-- The caregiver row the new-save handler builds (src/app.py 397–411). -/
def newCaregiverRecord (key now : String) (inp : CaregiverInput) : Caregiver :=
  { caregiver_key := key
    caregiver_name := pyStrip inp.c_name
    gender := inp.c_gender
    profession := pyStrip inp.c_prof
    date_of_birth := inp.c_dob
    age := match inp.c_age with
           | some a => if a > 0 then some a else none
           | none => none
    phone_number := pyStrip inp.c_phone
    address := if inp.c_address ≠ "" then pyStrip inp.c_address else ""
    zonal_leader := if inp.c_zonal_leader ≠ "" then pyStrip inp.c_zonal_leader else ""
    bank := if inp.c_bank ≠ "" then pyStrip inp.c_bank else ""
    account_number := if inp.c_account_number ≠ "" then pyStrip inp.c_account_number else ""
    number_of_kids := inp.c_numkids
    last_updated := now }

/-- The `if submitted:` handler of the main caregiver form.  `none` models
`st.stop()` (validation failed, no mutation); otherwise the updated
`(caregivers, children)` tables as saved by `save_data`. -/
def caregiverFormSubmit (seed : List Nat) (now : String)
    (cg_df : List Caregiver) (ch_df : List ChildRow)
    (inp : CaregiverInput) (edited : List ChildInput) :
    Option (List Caregiver × List ChildRow) :=
  if inp.c_name = "" then none
  else
    let missing_child_names := edited.filter (fun r =>
      pyStrip r.child_name == "" &&
        (pyStrip r.child_phone_number != "" || r.child_age.isSome ||
         r.child_date_of_birth.isSome || r.child_education_level != "" ||
         r.child_profession != ""))
    let invalid_child_phones := edited.filter (fun r =>
      pyStrip r.child_phone_number != "" &&
        !validate_phone_number (pyStrip r.child_phone_number))
    if missing_child_names ≠ [] then none
    else if invalid_child_phones ≠ [] then none
    else
      let key := stable_key seed inp.c_name inp.c_phone
      let new_row := newCaregiverRecord key now inp
      let cg2 := cg_df.filter (fun r => r.caregiver_key != key) ++ [new_row]
      let children_rows := edited.filterMap (newSaveChildRow key inp.c_name inp.c_phone now)
      let ch1 := ch_df.filter (fun r => r.caregiver_key != key)
      let ch2 := if children_rows.isEmpty then ch1 else ch1 ++ children_rows
      some (cg2, ch2)

/-! ## The edit update (`if update_submitted:` handler, src/app.py 2114–2199) -/

/-- The name-or-phone changed test (src/app.py 2147) that triggers re-keying:
a raw string comparison against the stored row, not a key comparison. -/
def updateRekey (caregiver_data : Caregiver) (e : EditInput) : Bool :=
  e.edit_name != caregiver_data.caregiver_name ||
  e.edit_phone != caregiver_data.phone_number

/-- The key the update handler writes under. -/
def updateNewKey (seed : List Nat) (caregiver_key : String)
    (caregiver_data : Caregiver) (e : EditInput) : String :=
  if updateRekey caregiver_data e then stable_key seed e.edit_name e.edit_phone
  else caregiver_key

/-- Build one child row in the edit-update path (src/app.py 2166–2189).
Unlike the new-save path, a blank child phone is kept blank. -/
def updateChildRow (new_key edit_name now : String) (r : ChildInput) : Option ChildRow :=
  let name := pyStrip r.child_name
  if name = "" then none
  else
    let child_phone := pyStrip r.child_phone_number
    some { caregiver_key := new_key
           caregiver_name := pyStrip edit_name
           child_name := name
           child_gender := pyStrip r.child_gender
           child_phone_number := child_phone
           child_age := r.child_age
           child_date_of_birth := r.child_date_of_birth
           child_education_level := pyStrip r.child_education_level
           child_school_name := pyStrip r.child_school_name
           child_class_level := pyStrip r.child_class_level
           child_profession := pyStrip r.child_profession
           last_updated := now }

/-- The caregiver row the update handler builds (src/app.py 2145–2160). -/
def updatedCaregiverRecord (new_key now : String) (e : EditInput) : Caregiver :=
  { caregiver_key := new_key
    caregiver_name := pyStrip e.edit_name
    gender := e.edit_gender
    profession := pyStrip e.edit_prof
    date_of_birth := e.edit_dob
    age := e.edit_age
    phone_number := pyStrip e.edit_phone
    address := if e.edit_address ≠ "" then pyStrip e.edit_address else ""
    zonal_leader := pyStrip e.edit_zonal_leader
    bank := if e.edit_bank ≠ "" then pyStrip e.edit_bank else ""
    account_number := if e.edit_account_number ≠ "" then pyStrip e.edit_account_number else ""
    number_of_kids := e.edit_numkids
    last_updated := now }

/-- The `if update_submitted:` handler.  `caregiver_key` is the key of the
selected record and `caregiver_data` its stored row; `none` models
`st.stop()`. -/
def updateSubmitted (seed : List Nat) (now : String)
    (cg_df : List Caregiver) (ch_df : List ChildRow)
    (caregiver_key : String) (caregiver_data : Caregiver)
    (e : EditInput) (edited_children : List ChildInput) :
    Option (List Caregiver × List ChildRow) :=
  if e.edit_name = "" then none
  else
    let invalid_child_phones := edited_children.filter (fun r =>
      pyStrip r.child_phone_number != "" &&
        !validate_phone_number (pyStrip r.child_phone_number))
    if invalid_child_phones ≠ [] then none
    else
      let new_key := updateNewKey seed caregiver_key caregiver_data e
      let cg1 :=
        if updateRekey caregiver_data e then
          cg_df.filter (fun r => r.caregiver_key != caregiver_key)
        else cg_df.filter (fun r => r.caregiver_key != new_key)
      let ch1 :=
        if updateRekey caregiver_data e then
          ch_df.filter (fun r => r.caregiver_key != caregiver_key)
        else ch_df
      let updated_caregiver := updatedCaregiverRecord new_key now e
      let cg2 := cg1 ++ [updated_caregiver]
      let children_rows := edited_children.filterMap (updateChildRow new_key e.edit_name now)
      let ch2 := if children_rows.isEmpty then ch1 else ch1 ++ children_rows
      some (cg2, ch2)

/-- The projection with which the edit form's children editor is pre-populated
from the caregiver's stored child rows (src/app.py 2003–2022). -/
def childRowToInput (c : ChildRow) : ChildInput :=
  { child_name := c.child_name
    child_gender := c.child_gender
    child_phone_number := c.child_phone_number
    child_age := c.child_age
    child_date_of_birth := c.child_date_of_birth
    child_education_level := c.child_education_level
    child_school_name := c.child_school_name
    child_class_level := c.child_class_level
    child_profession := c.child_profession }

/-! ## Caregiver-shaped import (src/app.py 2291–2323 and 2386–2419) -/

/-- One caregiver-shaped row of an imported CSV/Excel file. -/
structure ImportRow where
  caregiver_name : String
  phone_number : String
  gender : String
  profession : String
  date_of_birth : Option String
  age : Option Int
  address : String
  zonal_leader : String
  bank : String
  account_number : String
  number_of_kids : Option Int
deriving DecidableEq, Repr

/-- The two in-memory tables the import handler has in scope. -/
structure Tables where
  caregivers : List Caregiver
  children : List ChildRow
deriving DecidableEq, Repr

/-- The loop body of the caregiver import (src/app.py 2292–2320): skip a row
with no name, otherwise upsert `cg_df` by the derived key.  Only the
caregivers table is reassigned. -/
def importCaregiverRow (seed : List Nat) (now : String) (t : Tables)
    (row : ImportRow) : Tables :=
  let name := pyStrip row.caregiver_name
  let phone := pyStrip row.phone_number
  if name = "" then t
  else
    let key := stable_key seed name phone
    let new_row : Caregiver :=
      { caregiver_key := key
        caregiver_name := name
        gender := pyStrip row.gender
        profession := pyStrip row.profession
        date_of_birth := row.date_of_birth
        age := row.age
        phone_number := phone
        address := pyStrip row.address
        zonal_leader := pyStrip row.zonal_leader
        bank := pyStrip row.bank
        account_number := pyStrip row.account_number
        number_of_kids := row.number_of_kids
        last_updated := now }
    { t with caregivers :=
        t.caregivers.filter (fun r => r.caregiver_key != key) ++ [new_row] }

/-- The CSV caregiver import branch: fold the rows over the tables.  `seeds i`
models the `os.urandom` draw of `stable_key` at the `i`-th row. -/
def importCaregiverDataCSV (seeds : Nat → List Nat) (now : String)
    (t : Tables) (rows : List ImportRow) : Tables :=
  rows.enum.foldl (fun acc ir => importCaregiverRow (seeds ir.1) now acc ir.2) t

/-- The Excel caregiver import branch; its loop body is a verbatim copy of the
CSV branch's. -/
def importCaregiverDataExcel (seeds : Nat → List Nat) (now : String)
    (t : Tables) (rows : List ImportRow) : Tables :=
  rows.enum.foldl (fun acc ir => importCaregiverRow (seeds ir.1) now acc ir.2) t

/-! ## Child-phone migration (`migrate_child_phone_numbers`, src/app.py 136–162) -/

/-- `dict(zip(cg_df['caregiver_key'], cg_df['phone_number']))` looked up at
`key`: the phone of the **last** caregiver row with that key, or `none` when
the key is absent. -/
def caregiverPhones (cg_df : List Caregiver) (key : String) : Option String :=
  (cg_df.reverse.find? (fun r => r.caregiver_key == key)).map
    (fun r => r.phone_number)

/-- The migration loop body for one child row, paired with its contribution to
`updated_count`: a blank child phone is replaced by the caregiver's stripped
phone when the key is mapped and that phone is non-blank. -/
def migrateRow (cg_df : List Caregiver) (row : ChildRow) : ChildRow × Nat :=
  if pyStrip row.child_phone_number = "" then
    match caregiverPhones cg_df row.caregiver_key with
    | some cp =>
        if cp ≠ "" ∧ pyStrip cp ≠ "" then
          ({ row with child_phone_number := pyStrip cp }, 1)
        else (row, 0)
    | none => (row, 0)
  else (row, 0)

/-- `migrate_child_phone_numbers` as a pure function on the loaded tables:
the updated children table and `updated_count`.  The per-row updates are
independent (the caregiver table is never modified), so the row loop is a map
and the count a sum. -/
def migrate_child_phone_numbers (cg_df : List Caregiver) (ch_df : List ChildRow) :
    List ChildRow × Nat :=
  (ch_df.map (fun r => (migrateRow cg_df r).1),
   (ch_df.map (fun r => (migrateRow cg_df r).2)).sum)

/-! ## Unverified-names workflow (src/unverified_caregivers.py) -/

/-- One row of the `unverified_caregivers` sheet. -/
structure URec where
  unverified_id : String
  name : String
  status : String
  upload_date : String
  notes : String
  verified_date : Option String
  verified_by : Option String
deriving DecidableEq, Repr

/-- `pandas.Series.unique`: first occurrence of each distinct raw value. -/
def uniqueKeepFirst (l : List String) : List String :=
  l.foldl (fun acc a => if a ∈ acc then acc else acc ++ [a]) []

/-- The "Add to Unverified List" handler (src/unverified_caregivers.py
135–168): trim each candidate, skip candidates whose lowercase form already
occurs among the **pre-existing** names, append the rest.  `idgen i` stands in
for the timestamp-based `generate_unverified_id` of the `i`-th appended
record.  Returns the updated table and the number of records added. -/
def bulkAdd (unverified_df : List URec) (candidates : List String)
    (idgen : Nat → String) (now fileName : String) : List URec × Nat :=
  let names_preview := uniqueKeepFirst candidates
  let new_records := names_preview.foldl (fun acc name =>
    if name != "" && pyStrip name != "" then
      let clean_name := pyStrip name
      if (unverified_df.filter (fun r => pyLower r.name == pyLower clean_name)) ≠ [] then
        acc
      else
        acc ++ [{ unverified_id := idgen acc.length
                  name := clean_name
                  status := "pending"
                  upload_date := now
                  notes := "Uploaded from " ++ fileName
                  verified_date := none
                  verified_by := none : URec }]
    else acc) []
  (unverified_df ++ new_records, new_records.length)

/-- The per-record "Verify" button (src/unverified_caregivers.py 318–327): the
button exists only on rows of the pending-filtered view, so the action is a
no-op unless the row at `idx` is pending. -/
def verifyRecord (unverified_df : List URec) (idx : Nat) (now : String) :
    List URec :=
  match unverified_df.get? idx with
  | some r =>
      if r.status = "pending" then
        unverified_df.set idx
          { r with status := "verified", verified_date := some now,
                   verified_by := some "Manual Verification" }
      else unverified_df
  | none => unverified_df

/-- The per-record "Reject" button (src/unverified_caregivers.py 329–337). -/
def rejectRecord (unverified_df : List URec) (idx : Nat) (now : String) :
    List URec :=
  match unverified_df.get? idx with
  | some r =>
      if r.status = "pending" then
        unverified_df.set idx
          { r with status := "rejected", verified_date := some now,
                   verified_by := some "Manual Verification" }
      else unverified_df
  | none => unverified_df

/-- One row of the "Save Changes" loop (src/unverified_caregivers.py 251–255):
overwrite the first stored row carrying the edited row's id with the edited
row, every field included. -/
def saveChangesRow (unverified_df : List URec) (row : URec) : List URec :=
  match unverified_df.findIdx? (fun r => r.unverified_id == row.unverified_id) with
  | some i => unverified_df.set i row
  | none => unverified_df

/-- The "Save Changes" handler (src/unverified_caregivers.py 249–258). -/
def saveChanges (unverified_df : List URec) (edited_df : List URec) : List URec :=
  edited_df.foldl saveChangesRow unverified_df

/-! ## Helper lemmas -/

theorem stripEnds_eq_rdropWhile (p : Char → Bool) (l : List Char) :
    stripEnds p l = List.rdropWhile p (l.dropWhile p) := rfl

theorem stripEnds_idem (p : Char → Bool) (l : List Char) :
    stripEnds p (stripEnds p l) = stripEnds p l := by
  rw [stripEnds_eq_rdropWhile, stripEnds_eq_rdropWhile]
  have hdw : (List.rdropWhile p (l.dropWhile p)).dropWhile p
      = List.rdropWhile p (l.dropWhile p) := by
    rw [List.dropWhile_eq_self_iff]
    intro hl
    obtain ⟨t, ht⟩ := List.rdropWhile_prefix p (l.dropWhile p)
    have h0 : 0 < (l.dropWhile p).length := by
      rw [← ht, List.length_append]
      omega
    have hnp := List.dropWhile_get_zero_not p l h0
    have hg : (List.rdropWhile p (l.dropWhile p)).get? 0 = (l.dropWhile p).get? 0 := by
      conv_rhs => rw [← ht]
      exact (List.get?_append hl).symm
    have heq : (List.rdropWhile p (l.dropWhile p)).get ⟨0, hl⟩
        = (l.dropWhile p).get ⟨0, h0⟩ := by
      have hsome := (List.get?_eq_get hl).symm.trans (hg.trans (List.get?_eq_get h0))
      exact Option.some.inj hsome
    rw [heq]
    exact hnp
  rw [hdw, List.rdropWhile_idempotent]

theorem pyStrip_idem (s : String) : pyStrip (pyStrip s) = pyStrip s :=
  congrArg String.mk (stripEnds_idem pyIsSpace s.data)

/-! ## The caregiver-key uniqueness invariant -/

/-- At most one caregiver row per identity key. -/
def keysUnique (cg_df : List Caregiver) : Prop :=
  (cg_df.map (fun r => r.caregiver_key)).Nodup

instance (cg_df : List Caregiver) : Decidable (keysUnique cg_df) :=
  List.nodupDecidable _

/-! ## Migration idempotence (claim C6) -/

theorem migrateRow_idem (cg_df : List Caregiver) (row : ChildRow) :
    migrateRow cg_df (migrateRow cg_df row).1 = ((migrateRow cg_df row).1, 0) := by
  unfold migrateRow
  by_cases h : pyStrip row.child_phone_number = ""
  · cases hcp : caregiverPhones cg_df row.caregiver_key with
    | none => simp [h, hcp]
    | some cp =>
      by_cases hc : cp ≠ "" ∧ pyStrip cp ≠ ""
      · simp [h, hcp, hc, pyStrip_idem, hc.2]
      · simp [h, hcp, hc]
  · simp [h]

/-- C6: `backfillChildPhones` is idempotent: reapplying it to its own output
changes no child row and reports an updated-count of 0. -/
theorem C6_backfill_idempotent (cg_df : List Caregiver) (ch_df : List ChildRow) :
    migrate_child_phone_numbers cg_df (migrate_child_phone_numbers cg_df ch_df).1
      = ((migrate_child_phone_numbers cg_df ch_df).1, 0) := by
  have hfst : ∀ r : ChildRow,
      (migrateRow cg_df ((migrateRow cg_df r).1)).1 = (migrateRow cg_df r).1 :=
    fun r => by rw [migrateRow_idem]
  have hsnd : ∀ r : ChildRow,
      (migrateRow cg_df ((migrateRow cg_df r).1)).2 = 0 :=
    fun r => by rw [migrateRow_idem]
  unfold migrate_child_phone_numbers
  simp only [List.map_map, Function.comp, Prod.mk.injEq]
  constructor
  · exact List.map_congr_left (fun r _ => hfst r)
  · exact List.sum_eq_zero (fun x hx => by
      obtain ⟨r, _, rfl⟩ := List.mem_map.mp hx
      exact hsnd r)

/-! ## Import frame property (claim C10) -/

theorem importCaregiverRow_children (seed : List Nat) (now : String)
    (t : Tables) (row : ImportRow) :
    (importCaregiverRow seed now t row).children = t.children := by
  unfold importCaregiverRow
  dsimp only
  split <;> rfl

theorem import_foldl_children (seeds : Nat → List Nat) (now : String) :
    ∀ (l : List (Nat × ImportRow)) (t : Tables),
      (l.foldl (fun acc ir => importCaregiverRow (seeds ir.1) now acc ir.2) t).children
        = t.children := by
  intro l
  induction l with
  | nil => intro t; rfl
  | cons hd tl ih =>
      intro t
      rw [List.foldl_cons, ih, importCaregiverRow_children]

/-- C10: a caregiver-shaped import (CSV or Excel branch) leaves the children
table exactly unchanged, whatever the imported rows are — in particular the
children of a re-keyed caregiver keep their old caregiver key. -/
theorem C10_import_children_frame (seeds : Nat → List Nat) (now : String)
    (t : Tables) (rows : List ImportRow) :
    (importCaregiverDataCSV seeds now t rows).children = t.children ∧
    (importCaregiverDataExcel seeds now t rows).children = t.children :=
  ⟨import_foldl_children seeds now rows.enum t,
   import_foldl_children seeds now rows.enum t⟩

/-! ## Bulk upload of unverified names (claim C7) -/

/-- C7 refuted: against an empty existing collection, the bulk upload of
`["Amaka", "amaka ", "Bayo"]` does **not** add 2 records — the duplicate check
consults only the pre-existing names, so intra-batch duplicates all land. -/
theorem C7_counterexample :
    (bulkAdd [] ["Amaka", "amaka ", "Bayo"] (fun i => toString i)
      "2026-01-01" "names.csv").2 ≠ 2 := by
  decide

/-- C7 amended: the same upload adds exactly 3 records, named
`Amaka`, `amaka`, `Bayo` (trimmed, original case); case/whitespace-insensitive
deduplication applies only against names already stored before the upload. -/
theorem C7_amended_bulkAdd_adds_three :
    ((bulkAdd [] ["Amaka", "amaka ", "Bayo"] (fun i => toString i)
        "2026-01-01" "names.csv").1.map (fun r => r.name)
      = ["Amaka", "amaka", "Bayo"]) ∧
    (bulkAdd [] ["Amaka", "amaka ", "Bayo"] (fun i => toString i)
      "2026-01-01" "names.csv").2 = 3 := by
  decide

/-! ## Concrete fixtures shared by counterexamples and witnesses -/

/-- A blank child-editor row. -/
def blankChildInput : ChildInput :=
  { child_name := "", child_gender := "", child_phone_number := "",
    child_age := none, child_date_of_birth := none, child_education_level := "",
    child_school_name := "", child_class_level := "", child_profession := "" }

/-- A child-editor row named `tom` with a blank phone. -/
def tomBlankPhone : ChildInput := { blankChildInput with child_name := "tom" }

/-- A nameless child-editor row that still carries a phone number. -/
def namelessWithPhone : ChildInput := { blankChildInput with child_phone_number := "1" }

/-- A caregiver row with all fields blank. -/
def blankCaregiver : Caregiver :=
  { caregiver_key := "", caregiver_name := "", gender := "", profession := "",
    date_of_birth := none, age := none, phone_number := "", address := "",
    zonal_leader := "", bank := "", account_number := "", number_of_kids := none,
    last_updated := "" }

/-- Caregiver `ann`, stored under the literal key `k0`. -/
def cgAnn : Caregiver :=
  { blankCaregiver with
    caregiver_key := "k0", caregiver_name := "ann", phone_number := "0803" }

/-- The edit-form input that resubmits `ann` with name and phone unchanged. -/
def editAnnSame : EditInput :=
  { edit_name := "ann", edit_gender := "", edit_prof := "", edit_dob := none,
    edit_age := none, edit_phone := "0803", edit_address := "",
    edit_zonal_leader := "", edit_bank := "", edit_account_number := "",
    edit_numkids := none }

/-- What the new-save path stores for `tom` under key `k`, caregiver `ann`
with phone `0803`. -/
def tomSavedNew : ChildRow :=
  { caregiver_key := "k", caregiver_name := "ann", child_name := "tom",
    child_gender := "", child_phone_number := "0803", child_age := none,
    child_date_of_birth := none, child_education_level := "",
    child_school_name := "", child_class_level := "", child_profession := "",
    last_updated := "t" }

/-- What the edit-update path stores for the same input: the blank phone is
kept blank. -/
def tomSavedEdit : ChildRow := { tomSavedNew with child_phone_number := "" }

/-! ## Child-phone substitution (claim C4) -/

/-- C4 refuted: re-saving caregiver `ann` (phone `0803`) through the edit
handler with child `tom` whose phone cell is blank persists `tom` with phone
`""`, not with the caregiver's phone — only the new-save path substitutes. -/
theorem C4_counterexample :
    ((updateSubmitted [] "t1" [cgAnn] [] "k0" cgAnn editAnnSame [tomBlankPhone]).map
        (fun res => res.2.map (fun c => c.child_phone_number)) = some [""]) ∧
    pyStrip editAnnSame.edit_phone = "0803" := by
  decide

/-- C4 amended: in the **new-save** path a retained child row with a blank
phone gets the caregiver's stripped phone (a point-in-time copy) and a
non-blank phone is kept; in the **edit-update** path the child's phone is
persisted exactly as entered, blank included. -/
theorem C4_amended_child_phone_substitution :
    (∀ key cname cphone now r c, newSaveChildRow key cname cphone now r = some c →
       c.child_phone_number =
         (if pyStrip r.child_phone_number = "" then pyStrip cphone
          else pyStrip r.child_phone_number)) ∧
    (∀ new_key edit_name now r c, updateChildRow new_key edit_name now r = some c →
       c.child_phone_number = pyStrip r.child_phone_number) := by
  constructor
  · intro key cname cphone now r c h
    by_cases hn : pyStrip r.child_name = ""
    · simp [newSaveChildRow, hn] at h
    · simp only [newSaveChildRow, hn, if_false, Option.some.injEq] at h
      subst h
      rfl
  · intro new_key edit_name now r c h
    by_cases hn : pyStrip r.child_name = ""
    · simp [updateChildRow, hn] at h
    · simp only [updateChildRow, hn, if_false, Option.some.injEq] at h
      subst h
      rfl

theorem C4_amended_witness :
    tomSavedNew.child_phone_number =
      (if pyStrip tomBlankPhone.child_phone_number = "" then pyStrip "0803"
       else pyStrip tomBlankPhone.child_phone_number) ∧
    tomSavedEdit.child_phone_number = pyStrip tomBlankPhone.child_phone_number :=
  ⟨C4_amended_child_phone_substitution.1 "k" "ann" "0803" "t" tomBlankPhone
      tomSavedNew (by decide),
   C4_amended_child_phone_substitution.2 "k" "ann" "t" tomBlankPhone
      tomSavedEdit (by decide)⟩

/-! ## Blank-identity keys (claim C9) -/

/-- A 16-byte all-zero draw of `os.urandom(16)`. -/
def seedZ : List Nat := List.replicate 16 0

/-- A 16-byte all-one draw of `os.urandom(16)`. -/
def seedO : List Nat := List.replicate 16 1

/-- C9 refuted: the blank-identity key is a pure function of the 16 random
bytes, so two calls whose draws coincide yield the **same** key — distinctness
of blank identities is not absolute. -/
theorem C9_counterexample :
    ¬ (∀ s1 s2 : List Nat, s1.length = 16 → s2.length = 16 →
        stable_key s1 "" "" ≠ stable_key s2 "" "") := by
  intro h
  exact h seedZ seedZ (by decide) (by decide) rfl

/-- C9 amended: for inputs whose name and phone both normalize to empty, the
key is the truncated digest of the random seed alone, so two calls yield
different keys exactly when their seeds' truncated digests differ — as they do
for the concrete all-zero and all-one seeds. -/
theorem C9_amended_blank_key_from_seed :
    (∀ (seed : List Nat) (name phone : String),
        pyLower (pyStrip name) = "" → digitsOnly phone = "" →
        stable_key seed name phone = sha1hex12 seed) ∧
    stable_key seedZ "" "" ≠ stable_key seedO "" "" := by
  constructor
  · intro seed name phone h1 h2
    unfold stable_key
    rw [h1, h2, if_neg (by decide)]
  · decide

theorem C9_amended_witness :
    pyLower (pyStrip "") = "" ∧ digitsOnly "" = "" ∧
    stable_key seedZ "" "" = sha1hex12 seedZ :=
  ⟨by decide, by decide,
   C9_amended_blank_key_from_seed.1 seedZ "" "" (by decide) (by decide)⟩

/-! ## Terminality of verified/rejected (claim C8) -/

/-- An unverified-name record already decided as verified. -/
def uVerified : URec :=
  { unverified_id := "u1", name := "ada", status := "verified",
    upload_date := "d0", notes := "", verified_date := some "d1",
    verified_by := some "x" }

/-- The same record as re-edited in the Save Changes data editor, with the
status selectbox moved back to `pending`. -/
def uVerifiedEdited : URec := { uVerified with status := "pending" }

/-- A pending unverified-name record. -/
def uPending : URec :=
  { unverified_id := "u2", name := "bea", status := "pending",
    upload_date := "d0", notes := "", verified_date := none,
    verified_by := none }

/-- C8 refuted: the Save Changes operation overwrites a stored row with the
edited row wholesale, so it moves a `verified` record back to `pending` —
`verified` is not terminal across the workflow's operations. -/
theorem C8_counterexample :
    uVerified.status = "verified" ∧
    (saveChanges [uVerified] [uVerifiedEdited]).map (fun r => r.status)
      = ["pending"] := by
  decide

/-- C8 amended: the per-record Verify and Reject buttons transition only
`pending` records, to `verified` resp. `rejected`; any record whose status
they change was `pending` before.  (Save Changes and the bulk actions, by
contrast, can re-status decided records, as the counterexample shows.) -/
theorem C8_amended_verify_reject_only_from_pending :
    (∀ (df : List URec) (idx : Nat) (now : String) (j : Nat),
        ((verifyRecord df idx now).get? j).map (fun r => r.status)
          ≠ (df.get? j).map (fun r => r.status) →
        (df.get? j).map (fun r => r.status) = some "pending" ∧
        ((verifyRecord df idx now).get? j).map (fun r => r.status)
          = some "verified") ∧
    (∀ (df : List URec) (idx : Nat) (now : String) (j : Nat),
        ((rejectRecord df idx now).get? j).map (fun r => r.status)
          ≠ (df.get? j).map (fun r => r.status) →
        (df.get? j).map (fun r => r.status) = some "pending" ∧
        ((rejectRecord df idx now).get? j).map (fun r => r.status)
          = some "rejected") := by
  constructor
  · intro df idx now j hne
    cases hidx : df.get? idx with
    | none =>
      simp only [verifyRecord, hidx] at hne
      exact absurd rfl hne
    | some r =>
      by_cases hst : r.status = "pending"
      · by_cases hj : idx = j
        · subst hj
          refine ⟨by rw [hidx]; simp [hst], ?_⟩
          simp only [verifyRecord, hidx, hst, if_true]
          rw [List.get?_set_eq, hidx]
          simp
        · simp only [verifyRecord, hidx, hst, if_true] at hne
          rw [List.get?_set_ne _ _ hj] at hne
          exact absurd rfl hne
      · simp only [verifyRecord, hidx, hst, if_false] at hne
        exact absurd rfl hne
  · intro df idx now j hne
    cases hidx : df.get? idx with
    | none =>
      simp only [rejectRecord, hidx] at hne
      exact absurd rfl hne
    | some r =>
      by_cases hst : r.status = "pending"
      · by_cases hj : idx = j
        · subst hj
          refine ⟨by rw [hidx]; simp [hst], ?_⟩
          simp only [rejectRecord, hidx, hst, if_true]
          rw [List.get?_set_eq, hidx]
          simp
        · simp only [rejectRecord, hidx, hst, if_true] at hne
          rw [List.get?_set_ne _ _ hj] at hne
          exact absurd rfl hne
      · simp only [rejectRecord, hidx, hst, if_false] at hne
        exact absurd rfl hne

theorem C8_amended_witness :
    (([uPending].get? 0).map (fun r => r.status) = some "pending" ∧
      ((verifyRecord [uPending] 0 "d1").get? 0).map (fun r => r.status)
        = some "verified") ∧
    (([uPending].get? 0).map (fun r => r.status) = some "pending" ∧
      ((rejectRecord [uPending] 0 "d1").get? 0).map (fun r => r.status)
        = some "rejected") :=
  ⟨C8_amended_verify_reject_only_from_pending.1 [uPending] 0 "d1" 0 (by decide),
   C8_amended_verify_reject_only_from_pending.2 [uPending] 0 "d1" 0 (by decide)⟩

/-! ## The identity key digest (claim C5) -/

theorem stable_key_of_nonblank (seed : List Nat) (name phone : String)
    (h : stripPipes (pyLower (pyStrip name) ++ "|" ++ digitsOnly phone) ≠ "") :
    stable_key seed name phone
      = sha1hex12 (utf8Encode (pyLower (pyStrip name) ++ "|" ++ digitsOnly phone)) := by
  unfold stable_key
  rw [if_pos h]

theorem hexChar_mem_lower (n : Nat) (h : n < 16) :
    hexChar n ∈ ("0123456789abcdef").data := by
  have hall : ∀ m : Fin 16, hexChar m.val ∈ ("0123456789abcdef").data := by decide
  exact hall ⟨n, h⟩

theorem sha1hex_chars (msg : List Nat) :
    ∀ c ∈ (sha1hex msg).data, c ∈ ("0123456789abcdef").data := by
  intro c hc
  rcases hw : sha1words msg with ⟨h0, h1, h2, h3, h4⟩
  simp only [sha1hex, hw, wordHex] at hc
  simp only [List.mem_append, List.mem_map, List.mem_range] at hc
  rcases hc with ((((⟨i, _, rfl⟩ | ⟨i, _, rfl⟩) | ⟨i, _, rfl⟩) | ⟨i, _, rfl⟩) | ⟨i, _, rfl⟩) <;>
    exact hexChar_mem_lower _ (Nat.lt_succ_of_le (Nat.and_le_right))

theorem sha1hex_data_length (msg : List Nat) : (sha1hex msg).data.length = 40 := by
  rcases hw : sha1words msg with ⟨h0, h1, h2, h3, h4⟩
  simp [sha1hex, hw, wordHex]

theorem sha1hex12_data_length (msg : List Nat) : (sha1hex12 msg).data.length = 12 := by
  have h : (sha1hex msg).data.length = 40 := sha1hex_data_length msg
  show ((sha1hex msg).data.take 12).length = 12
  rw [List.length_take, h]
  omega

theorem sha1hex12_chars (msg : List Nat) :
    ∀ c ∈ (sha1hex12 msg).data, c ∈ ("0123456789abcdef").data := by
  intro c hc
  exact sha1hex_chars msg c (List.take_subset _ _ hc)

/-- C5 refuted: for `name = "|"`, `phone = ""` the normalized name `"|"` is
non-empty, yet `raw.strip("|")` is empty, so `stable_key` takes the random
branch instead of returning the digest of `"{normalized_name}|{normalized_phone}"`. -/
theorem C5_counterexample :
    ¬ (pyLower (pyStrip "|") = "" ∧ digitsOnly "" = "") ∧
    stable_key seedZ "|" ""
      ≠ sha1hex12 (utf8Encode (pyLower (pyStrip "|") ++ "|" ++ digitsOnly "")) := by
  decide

/-- C5 amended: whenever `"{normalized_name}|{normalized_phone}"` stripped of
pipe characters at both ends is non-empty (equivalently: the normalized phone
is non-empty or the normalized name has a non-pipe character — which the claim's
"not both empty" condition does not quite capture), `stable_key` returns the
first 12 characters of the lowercase hex SHA-1 digest of that string,
independently of the random seed; hence any two calls whose inputs normalize
equally return the identical key, and every key is a 12-character lowercase
hexadecimal string. -/
theorem C5_amended_digest :
    (∀ (seed : List Nat) (name phone : String),
        stripPipes (pyLower (pyStrip name) ++ "|" ++ digitsOnly phone) ≠ "" →
        stable_key seed name phone
          = sha1hex12 (utf8Encode (pyLower (pyStrip name) ++ "|" ++ digitsOnly phone))) ∧
    (∀ (seed1 seed2 : List Nat) (n1 p1 n2 p2 : String),
        pyLower (pyStrip n1) = pyLower (pyStrip n2) →
        digitsOnly p1 = digitsOnly p2 →
        stripPipes (pyLower (pyStrip n1) ++ "|" ++ digitsOnly p1) ≠ "" →
        stable_key seed1 n1 p1 = stable_key seed2 n2 p2) ∧
    (∀ (seed : List Nat) (name phone : String),
        (stable_key seed name phone).data.length = 12 ∧
        ∀ c ∈ (stable_key seed name phone).data, c ∈ ("0123456789abcdef").data) := by
  refine ⟨stable_key_of_nonblank, ?_, ?_⟩
  · intro seed1 seed2 n1 p1 n2 p2 hn hp h
    rw [stable_key_of_nonblank seed1 n1 p1 h]
    rw [stable_key_of_nonblank seed2 n2 p2 (by rw [← hn, ← hp]; exact h)]
    rw [hn, hp]
  · intro seed name phone
    simp only [stable_key]
    split
    · exact ⟨sha1hex12_data_length _, sha1hex12_chars _⟩
    · exact ⟨sha1hex12_data_length _, sha1hex12_chars _⟩

theorem C5_amended_witness :
    (stripPipes (pyLower (pyStrip "Jane Doe ") ++ "|" ++ digitsOnly "0803-111-2222") ≠ "") ∧
    stable_key seedZ "Jane Doe " "0803-111-2222"
      = sha1hex12 (utf8Encode (pyLower (pyStrip "Jane Doe ") ++ "|"
          ++ digitsOnly "0803-111-2222")) ∧
    stable_key seedZ "Jane Doe " "0803-111-2222"
      = stable_key seedO "jane doe" "08031112222" :=
  ⟨by decide,
   C5_amended_digest.1 seedZ "Jane Doe " "0803-111-2222" (by decide),
   C5_amended_digest.2.1 seedZ seedO "Jane Doe " "0803-111-2222" "jane doe"
     "08031112222" (by decide) (by decide) (by decide)⟩

/-! ## Empty child list clears children (claim C3) -/

/-- The key of caregiver `ann` with phone `0803`. -/
def kAnn : String := stable_key [] "ann" "0803"

/-- The main-form input resubmitting `ann`. -/
def annInput : CaregiverInput :=
  { c_name := "ann", c_gender := "", c_prof := "", c_dob := none, c_age := none,
    c_phone := "0803", c_address := "", c_zonal_leader := "", c_bank := "",
    c_account_number := "", c_numkids := none }

/-- Caregiver `ann` stored under her derived key. -/
def cgAnnKeyed : Caregiver :=
  { blankCaregiver with
    caregiver_key := kAnn, caregiver_name := "ann", phone_number := "0803" }

/-- A child row of `ann` already in the children table. -/
def chTomRow : ChildRow :=
  { caregiver_key := kAnn, caregiver_name := "ann", child_name := "tom",
    child_gender := "", child_phone_number := "0803", child_age := none,
    child_date_of_birth := none, child_education_level := "",
    child_school_name := "", child_class_level := "", child_profession := "",
    last_updated := "t0" }

/-- C3 refuted: a child input list all of whose rows have empty trimmed names
does **not** always leave zero child rows for the key — a nameless row that
still carries a phone number trips the `Child name is required` validation, so
the handler stops with no mutation and the pre-existing child row survives. -/
theorem C3_counterexample :
    (∀ r ∈ [namelessWithPhone], pyStrip r.child_name = "") ∧
    caregiverFormSubmit [] "t1" [cgAnnKeyed] [chTomRow] annInput [namelessWithPhone]
      = none ∧
    ([chTomRow].filter
        (fun c => c.caregiver_key == stable_key [] annInput.c_name annInput.c_phone)).length
      = 1 := by
  decide

/-- C3 amended: if the child input list is empty, or every row has an empty
trimmed name **and** none of those nameless rows carries a phone, age, date of
birth, education level or profession (the fields the validation inspects),
the save succeeds and zero child rows remain for the caregiver's key, whatever
existed before. -/
theorem C3_amended_empty_children_clears (seed : List Nat) (now : String)
    (cg_df : List Caregiver) (ch_df : List ChildRow)
    (inp : CaregiverInput) (edited : List ChildInput)
    (hname : inp.c_name ≠ "")
    (hempty : ∀ r ∈ edited, pyStrip r.child_name = "")
    (hclean : ∀ r ∈ edited, pyStrip r.child_phone_number = "" ∧ r.child_age = none ∧
        r.child_date_of_birth = none ∧ r.child_education_level = "" ∧
        r.child_profession = "") :
    (caregiverFormSubmit seed now cg_df ch_df inp edited).map
      (fun res => res.2.filter
        (fun c => c.caregiver_key == stable_key seed inp.c_name inp.c_phone))
      = some [] := by
  have hmiss : (edited.filter (fun r =>
      pyStrip r.child_name == "" &&
        (pyStrip r.child_phone_number != "" || r.child_age.isSome ||
         r.child_date_of_birth.isSome || r.child_education_level != "" ||
         r.child_profession != ""))) = [] := by
    rw [List.filter_eq_nil_iff]
    intro r hr
    obtain ⟨h1, h2, h3, h4, h5⟩ := hclean r hr
    simp [h1, h2, h3, h4, h5]
  have hinv : (edited.filter (fun r =>
      pyStrip r.child_phone_number != "" &&
        !validate_phone_number (pyStrip r.child_phone_number))) = [] := by
    rw [List.filter_eq_nil_iff]
    intro r hr
    simp [validate_phone_number]
  have hrows : edited.filterMap
      (newSaveChildRow (stable_key seed inp.c_name inp.c_phone)
        inp.c_name inp.c_phone now) = [] := by
    rw [List.filterMap_eq_nil_iff]
    intro r hr
    unfold newSaveChildRow
    rw [if_pos (hempty r hr)]
  simp only [caregiverFormSubmit, hname, if_false, hmiss, hinv, hrows,
    List.isEmpty_nil, if_true, ne_eq, not_true_eq_false, Bool.false_eq_true,
    Option.map_some', Option.some.injEq]
  rw [List.filter_eq_nil_iff]
  intro c hc
  have hkc := (List.mem_filter.mp hc).2
  simp only [bne_iff_ne, ne_eq] at hkc
  simp [hkc]

theorem C3_amended_witness :
    (annInput.c_name ≠ "") ∧
    (caregiverFormSubmit [] "t1" [cgAnnKeyed] [chTomRow] annInput []).map
      (fun res => res.2.filter
        (fun c => c.caregiver_key == stable_key [] annInput.c_name annInput.c_phone))
      = some [] :=
  ⟨by decide,
   C3_amended_empty_children_clears [] "t1" [cgAnnKeyed] [chTomRow] annInput []
     (by decide) (by decide) (by decide)⟩

/-! ## Re-keying moves the children (claim C2) -/

/-- Caregiver `ann` stored under the literal key `ka` (used for re-key
scenarios). -/
def cgAnnOldKey : Caregiver :=
  { blankCaregiver with
    caregiver_key := "ka", caregiver_name := "ann", phone_number := "1" }

/-- A child of `ann` stored under the literal key `ka`. -/
def chTomOldKey : ChildRow := { chTomRow with caregiver_key := "ka" }

/-- The edit-form input that renames `ann` to `bella` with phone `2`,
triggering the re-key branch. -/
def editToBella : EditInput :=
  { edit_name := "bella", edit_gender := "", edit_prof := "", edit_dob := none,
    edit_age := none, edit_phone := "2", edit_address := "",
    edit_zonal_leader := "", edit_bank := "", edit_account_number := "",
    edit_numkids := none }

theorem filter_key_ne_eq_nil_cg (cg : List Caregiver) (k : String) :
    (cg.filter (fun r => r.caregiver_key != k)).filter
      (fun r => r.caregiver_key == k) = [] := by
  rw [List.filter_eq_nil_iff]
  intro r hr
  have h := (List.mem_filter.mp hr).2
  simp only [bne_iff_ne, ne_eq] at h
  simp [h]

theorem filter_key_ne_eq_nil_ch (ch : List ChildRow) (k : String) :
    (ch.filter (fun c => c.caregiver_key != k)).filter
      (fun c => c.caregiver_key == k) = [] := by
  rw [List.filter_eq_nil_iff]
  intro c hc
  have h := (List.mem_filter.mp hc).2
  simp only [bne_iff_ne, ne_eq] at h
  simp [h]

theorem updateChildRow_some (new_key edit_name now : String) (r : ChildInput)
    (c : ChildRow) (h : updateChildRow new_key edit_name now r = some c) :
    c.caregiver_key = new_key ∧ c.child_name = pyStrip r.child_name := by
  by_cases hn : pyStrip r.child_name = ""
  · simp [updateChildRow, hn] at h
  · simp only [updateChildRow, hn, if_false, Option.some.injEq] at h
    subst h
    exact ⟨rfl, rfl⟩

theorem updateChildRow_of_name (new_key edit_name now : String) (r : ChildInput)
    (hn : pyStrip r.child_name ≠ "") :
    ∃ c, updateChildRow new_key edit_name now r = some c := by
  simp only [updateChildRow, hn, if_false]
  exact ⟨_, rfl⟩

/-- The update handler's result in the re-key branch, in closed form. -/
theorem updateSubmitted_rekey (seed : List Nat) (now : String)
    (cg_df : List Caregiver) (ch_df : List ChildRow)
    (caregiver_key : String) (caregiver_data : Caregiver) (e : EditInput)
    (edited_children : List ChildInput)
    (hname : e.edit_name ≠ "") (hrekey : updateRekey caregiver_data e = true) :
    updateSubmitted seed now cg_df ch_df caregiver_key caregiver_data e edited_children
      = some
        (cg_df.filter (fun r => r.caregiver_key != caregiver_key)
           ++ [updatedCaregiverRecord (stable_key seed e.edit_name e.edit_phone) now e],
         if (edited_children.filterMap
              (updateChildRow (stable_key seed e.edit_name e.edit_phone)
                e.edit_name now)).isEmpty
         then ch_df.filter (fun c => c.caregiver_key != caregiver_key)
         else ch_df.filter (fun c => c.caregiver_key != caregiver_key)
            ++ edited_children.filterMap
                (updateChildRow (stable_key seed e.edit_name e.edit_phone)
                  e.edit_name now)) := by
  have hinv : (edited_children.filter (fun r =>
      pyStrip r.child_phone_number != "" &&
        !validate_phone_number (pyStrip r.child_phone_number))) = [] := by
    rw [List.filter_eq_nil_iff]
    intro r hr
    simp [validate_phone_number]
  simp only [updateSubmitted, updateNewKey, hname, hrekey, hinv, if_false, if_true,
    ne_eq, not_true_eq_false, Bool.false_eq_true, ite_true, ite_false]

/-- C2: when an edit re-keys a caregiver (the derived key differs from the
stored key), the result has no caregiver row and no child row under the old
key, and every previously-associated child reappears (by trimmed name) under
the new key.  `edited_children` is the edit form's pre-population: the
caregiver's stored children. -/
theorem C2_rekey_moves_children (seed : List Nat) (now : String)
    (cg_df : List Caregiver) (ch_df : List ChildRow)
    (caregiver_key : String) (caregiver_data : Caregiver) (e : EditInput)
    (hname : e.edit_name ≠ "")
    (hkey : updateNewKey seed caregiver_key caregiver_data e ≠ caregiver_key)
    (hnames : ∀ c ∈ ch_df, c.caregiver_key = caregiver_key →
        pyStrip c.child_name ≠ "") :
    (updateSubmitted seed now cg_df ch_df caregiver_key caregiver_data e
        ((ch_df.filter (fun c => c.caregiver_key == caregiver_key)).map
          childRowToInput)).map
      (fun res =>
        (res.1.filter (fun r => r.caregiver_key == caregiver_key)).isEmpty &&
        (res.2.filter (fun c => c.caregiver_key == caregiver_key)).isEmpty &&
        (ch_df.filter (fun c => c.caregiver_key == caregiver_key)).all (fun c =>
          res.2.any (fun c2 =>
            c2.caregiver_key == updateNewKey seed caregiver_key caregiver_data e &&
            c2.child_name == pyStrip c.child_name)))
      = some true := by
  have hrekey : updateRekey caregiver_data e = true := by
    cases h : updateRekey caregiver_data e
    · exact absurd (by unfold updateNewKey; rw [h]; simp) hkey
    · rfl
  have hNK : updateNewKey seed caregiver_key caregiver_data e
      = stable_key seed e.edit_name e.edit_phone := by
    unfold updateNewKey
    simp [hrekey]
  have hKne : stable_key seed e.edit_name e.edit_phone ≠ caregiver_key := hNK ▸ hkey
  rw [updateSubmitted_rekey seed now cg_df ch_df caregiver_key caregiver_data e _
    hname hrekey]
  simp only [Option.map_some', Option.some.injEq, hNK, Bool.and_eq_true]
  refine ⟨⟨?_, ?_⟩, ?_⟩
  · rw [List.filter_append, filter_key_ne_eq_nil_cg]
    simp [updatedCaregiverRecord, hKne]
  · split
    · rw [filter_key_ne_eq_nil_ch]
      rfl
    · rw [List.filter_append, filter_key_ne_eq_nil_ch, List.nil_append]
      have hrows : (((ch_df.filter (fun c => c.caregiver_key == caregiver_key)).map
            childRowToInput).filterMap
            (updateChildRow (stable_key seed e.edit_name e.edit_phone)
              e.edit_name now)).filter
            (fun c => c.caregiver_key == caregiver_key) = [] := by
        rw [List.filter_eq_nil_iff]
        intro c hc
        obtain ⟨r, _, hrc⟩ := List.mem_filterMap.mp hc
        have hkeyc := (updateChildRow_some _ _ _ _ _ hrc).1
        simp [hkeyc, hKne]
      rw [hrows]
      rfl
  · rw [List.all_eq_true]
    intro c hc
    have hcmem := List.mem_filter.mp hc
    have hck : c.caregiver_key = caregiver_key := by simpa using hcmem.2
    have hcname : pyStrip c.child_name ≠ "" := hnames c hcmem.1 hck
    obtain ⟨c2, hc2⟩ := updateChildRow_of_name
      (stable_key seed e.edit_name e.edit_phone) e.edit_name now
      (childRowToInput c) hcname
    have hc2mem : c2 ∈ ((ch_df.filter (fun c => c.caregiver_key == caregiver_key)).map
        childRowToInput).filterMap
        (updateChildRow (stable_key seed e.edit_name e.edit_phone) e.edit_name now) :=
      List.mem_filterMap.mpr ⟨childRowToInput c, List.mem_map_of_mem _ hc, hc2⟩
    obtain ⟨hck2, hcn2⟩ := updateChildRow_some _ _ _ _ _ hc2
    have hne : ¬ (((ch_df.filter (fun c => c.caregiver_key == caregiver_key)).map
        childRowToInput).filterMap
        (updateChildRow (stable_key seed e.edit_name e.edit_phone)
          e.edit_name now)).isEmpty = true := by
      intro hE
      rw [List.isEmpty_iff] at hE
      rw [hE] at hc2mem
      exact absurd hc2mem (List.not_mem_nil _)
    rw [if_neg hne, List.any_eq_true]
    refine ⟨c2, List.mem_append_right _ hc2mem, ?_⟩
    simp [hck2, hcn2, childRowToInput]

theorem C2_witness :
    (editToBella.edit_name ≠ "") ∧
    (updateNewKey [] "ka" cgAnnOldKey editToBella ≠ "ka") ∧
    (updateSubmitted [] "t1" [cgAnnOldKey] [chTomOldKey] "ka" cgAnnOldKey editToBella
        (([chTomOldKey].filter (fun c => c.caregiver_key == "ka")).map
          childRowToInput)).map
      (fun res =>
        (res.1.filter (fun r => r.caregiver_key == "ka")).isEmpty &&
        (res.2.filter (fun c => c.caregiver_key == "ka")).isEmpty &&
        ([chTomOldKey].filter (fun c => c.caregiver_key == "ka")).all (fun c =>
          res.2.any (fun c2 =>
            c2.caregiver_key == updateNewKey [] "ka" cgAnnOldKey editToBella &&
            c2.child_name == pyStrip c.child_name)))
      = some true :=
  ⟨by decide, by decide,
   C2_rekey_moves_children [] "t1" [cgAnnOldKey] [chTomOldKey] "ka" cgAnnOldKey
     editToBella (by decide) (by decide) (by decide)⟩

/-- Caregiver `bella`, stored under her derived key. -/
def cgBella : Caregiver :=
  { blankCaregiver with
    caregiver_key := stable_key [] "bella" "2", caregiver_name := "bella",
    phone_number := "2" }

/-- The tables a successful blank-database new-save of `ann` produces. -/
def annSavedResult : List Caregiver × List ChildRow :=
  (caregiverFormSubmit [] "t" [] [] annInput []).getD ([], [])

/-- The tables a successful no-rekey edit of `ann` produces. -/
def annEditResult : List Caregiver × List ChildRow :=
  (updateSubmitted [] "t1" [cgAnn] [] "k0" cgAnn editAnnSame []).getD ([], [])

/-! ## At most one caregiver row per key (claim C1) -/

theorem keysUnique_filter_append (cg : List Caregiver) (k : String) (row : Caregiver)
    (h : keysUnique cg)
    (hmem : row.caregiver_key ∉ (cg.filter (fun r => r.caregiver_key != k)).map
        (fun r => r.caregiver_key)) :
    keysUnique (cg.filter (fun r => r.caregiver_key != k) ++ [row]) := by
  unfold keysUnique at h ⊢
  rw [List.map_append, List.nodup_append]
  refine ⟨h.sublist (List.Sublist.map _ (List.filter_sublist cg)),
    List.nodup_singleton _, ?_⟩
  intro a ha hb
  simp only [List.map_cons, List.map_nil, List.mem_singleton] at hb
  subst hb
  exact hmem ha

theorem keysUnique_upsert (cg : List Caregiver) (k : String) (row : Caregiver)
    (hrow : row.caregiver_key = k) (h : keysUnique cg) :
    keysUnique (cg.filter (fun r => r.caregiver_key != k) ++ [row]) := by
  apply keysUnique_filter_append cg k row h
  intro hmem
  obtain ⟨r, hr, hrk⟩ := List.mem_map.mp hmem
  have h2 := (List.mem_filter.mp hr).2
  simp only [bne_iff_ne, ne_eq] at h2
  exact h2 (by rw [hrk, hrow])

/-- A successful new-save leaves the caregiver table as an upsert by the
derived key. -/
theorem caregiverFormSubmit_fst (seed : List Nat) (now : String)
    (cg_df : List Caregiver) (ch_df : List ChildRow)
    (inp : CaregiverInput) (edited : List ChildInput)
    (res : List Caregiver × List ChildRow)
    (h : caregiverFormSubmit seed now cg_df ch_df inp edited = some res) :
    res.1 = cg_df.filter
        (fun r => r.caregiver_key != stable_key seed inp.c_name inp.c_phone)
      ++ [newCaregiverRecord (stable_key seed inp.c_name inp.c_phone) now inp] := by
  simp only [caregiverFormSubmit] at h
  split at h
  · exact absurd h (by simp)
  · split at h
    · exact absurd h (by simp)
    · split at h
      · exact absurd h (by simp)
      · rw [← Option.some.inj h]

/-- A successful edit-update leaves the caregiver table as a filtered table
plus the one updated row. -/
theorem updateSubmitted_fst (seed : List Nat) (now : String)
    (cg_df : List Caregiver) (ch_df : List ChildRow)
    (caregiver_key : String) (caregiver_data : Caregiver) (e : EditInput)
    (edited_children : List ChildInput) (res : List Caregiver × List ChildRow)
    (h : updateSubmitted seed now cg_df ch_df caregiver_key caregiver_data e
        edited_children = some res) :
    res.1 = (if updateRekey caregiver_data e then
               cg_df.filter (fun r => r.caregiver_key != caregiver_key)
             else
               cg_df.filter (fun r =>
                 r.caregiver_key != updateNewKey seed caregiver_key caregiver_data e))
      ++ [updatedCaregiverRecord (updateNewKey seed caregiver_key caregiver_data e)
            now e] := by
  simp only [updateSubmitted] at h
  split at h
  · exact absurd h (by simp)
  · split at h
    · exact absurd h (by simp)
    · rw [← Option.some.inj h]

theorem importCaregiverRow_keysUnique (seed : List Nat) (now : String)
    (t : Tables) (row : ImportRow) (h : keysUnique t.caregivers) :
    keysUnique (importCaregiverRow seed now t row).caregivers := by
  obtain ⟨cgs, chs⟩ := t
  simp only [importCaregiverRow]
  split
  · exact h
  · exact keysUnique_upsert _ _ _ (by simp) h

theorem import_foldl_keysUnique (seeds : Nat → List Nat) (now : String) :
    ∀ (l : List (Nat × ImportRow)) (t : Tables), keysUnique t.caregivers →
      keysUnique ((l.foldl
        (fun acc ir => importCaregiverRow (seeds ir.1) now acc ir.2) t).caregivers) := by
  intro l
  induction l with
  | nil => intro t h; exact h
  | cons hd tl ih =>
      intro t h
      rw [List.foldl_cons]
      exact ih _ (importCaregiverRow_keysUnique _ _ _ _ h)

/-- C1 refuted: editing caregiver `ann` (stored under key `ka`) so that her
derived key collides with caregiver `bella`'s stored key removes only the rows
under the **old** key, leaving two caregiver rows with the same key. -/
theorem C1_counterexample :
    keysUnique [cgAnnOldKey, cgBella] ∧
    (updateSubmitted [] "t1" [cgAnnOldKey, cgBella] [] "ka" cgAnnOldKey
        editToBella []).map (fun res => decide (keysUnique res.1))
      = some false := by
  decide

/-- C1 amended: the new-save upsert and both caregiver import branches
preserve the at-most-one-row-per-key invariant unconditionally; the edit
update preserves it provided that, when it re-keys, the new derived key is not
already carried by one of the remaining caregiver rows (without that proviso
the invariant can break, as the counterexample shows). -/
theorem C1_amended_keys_unique :
    (∀ (seed : List Nat) (now : String) (cg_df : List Caregiver)
        (ch_df : List ChildRow) (inp : CaregiverInput) (edited : List ChildInput)
        (res : List Caregiver × List ChildRow),
        keysUnique cg_df →
        caregiverFormSubmit seed now cg_df ch_df inp edited = some res →
        keysUnique res.1) ∧
    (∀ (seeds : Nat → List Nat) (now : String) (t : Tables) (rows : List ImportRow),
        keysUnique t.caregivers →
        keysUnique (importCaregiverDataCSV seeds now t rows).caregivers ∧
        keysUnique (importCaregiverDataExcel seeds now t rows).caregivers) ∧
    (∀ (seed : List Nat) (now : String) (cg_df : List Caregiver)
        (ch_df : List ChildRow) (caregiver_key : String)
        (caregiver_data : Caregiver) (e : EditInput)
        (edited_children : List ChildInput) (res : List Caregiver × List ChildRow),
        keysUnique cg_df →
        (updateRekey caregiver_data e = true →
          updateNewKey seed caregiver_key caregiver_data e ∉
            (cg_df.filter (fun r => r.caregiver_key != caregiver_key)).map
              (fun r => r.caregiver_key)) →
        updateSubmitted seed now cg_df ch_df caregiver_key caregiver_data e
          edited_children = some res →
        keysUnique res.1) := by
  refine ⟨?_, ?_, ?_⟩
  · intro seed now cg_df ch_df inp edited res hu h
    rw [caregiverFormSubmit_fst seed now cg_df ch_df inp edited res h]
    exact keysUnique_upsert _ _ _ (by simp [newCaregiverRecord]) hu
  · intro seeds now t rows hu
    exact ⟨import_foldl_keysUnique seeds now rows.enum t hu,
           import_foldl_keysUnique seeds now rows.enum t hu⟩
  · intro seed now cg_df ch_df caregiver_key caregiver_data e edited_children res
      hu hnew h
    rw [updateSubmitted_fst seed now cg_df ch_df caregiver_key caregiver_data e
      edited_children res h]
    cases hrk : updateRekey caregiver_data e with
    | false =>
        rw [if_neg Bool.false_ne_true]
        exact keysUnique_upsert _ _ _ (by simp [updatedCaregiverRecord]) hu
    | true =>
        rw [if_pos rfl]
        have hmem : (updatedCaregiverRecord
            (updateNewKey seed caregiver_key caregiver_data e) now e).caregiver_key ∉
            (cg_df.filter (fun r => r.caregiver_key != caregiver_key)).map
              (fun r => r.caregiver_key) := by
          simpa [updatedCaregiverRecord] using hnew hrk
        exact keysUnique_filter_append _ _ _ hu hmem

theorem C1_amended_witness :
    keysUnique annSavedResult.1 ∧
    keysUnique (importCaregiverDataCSV (fun _ => []) "t" ⟨[], []⟩ []).caregivers ∧
    keysUnique annEditResult.1 :=
  ⟨C1_amended_keys_unique.1 [] "t" [] [] annInput [] annSavedResult
     (by decide) (by decide),
   (C1_amended_keys_unique.2.1 (fun _ => []) "t" ⟨[], []⟩ [] (by decide)).1,
   C1_amended_keys_unique.2.2 [] "t1" [cgAnn] [] "k0" cgAnn editAnnSame []
     annEditResult (by decide) (by decide) (by decide)⟩

end SDI
